import Mathlib

/-!
Verification development for the Context7 MCP server (`src/index.ts`).

The server multiplexes MCP protocol sessions over a single HTTP path `/mcp`:
a global map `transports` from session id to transport instance, a POST
handler with a reuse / create / reject branch, a shared GET and DELETE
handler, two zod-validated tools (`resolve-library-id`, `get-library-docs`)
and SIGINT / SIGTERM shutdown handlers.

The shallow embedding below models the registry as an association list from
session id (String) to a transport identity marker (Nat), the express header
access as `Option String` (a header can be present with an empty value, and
an empty string is falsy in JavaScript exactly like an absent one), and the
session-id generator `randomUUID` as an explicit stream `g : Nat -> String`
consumed at a counter, so that properties about uniqueness become hypotheses
on `g`.  JavaScript numbers are modelled as `Int` (token counts are
integral), and the builtin string operations used by the handlers
(`String.prototype.split`, `String.prototype.includes`, `Number`) are
modelled over `List Char` on the fragment the handlers exercise.
-/

namespace Context7

/-- JavaScript truthiness of a `string | undefined` value: `undefined` and
the empty string are falsy, every other string is truthy.  This is the test
performed by `if (sessionId && ...)`, `if (!sessionId || ...)`,
`if (transport.sessionId)` and `if (!documentationText)` in `index.ts`. -/
def jsTruthyStr : Option String → Bool
  | none => false
  | some s => !(s == "")

/-- Lookup in the `transports` object: `transports[sessionId]`. -/
def rlookup : List (String × Nat) → String → Option Nat
  | [], _ => none
  | (k, v) :: r, s => if k = s then some v else rlookup r s

/-- Assignment into the `transports` object: `transports[k] = v`
(overwrites an existing key, otherwise appends a fresh one). -/
def rinsert : List (String × Nat) → String → Nat → List (String × Nat)
  | [], k, v => [(k, v)]
  | (k', v') :: r, k, v =>
    if k' = k then (k, v) :: r else (k', v') :: rinsert r k v

/-- Deletion from the `transports` object: `delete transports[k]`. -/
def rerase : List (String × Nat) → String → List (String × Nat)
  | [], _ => []
  | (k', v') :: r, k => if k' = k then r else (k', v') :: rerase r k

/-- The JSON-RPC error envelope sent by the POST handler reject branch:
`res.status(400).json({jsonrpc: "2.0", error: {code: -32000, message: ...},
id: null})`. -/
structure ErrorEnvelope where
  jsonrpc : String
  code : Int
  message : String
  idIsNull : Bool
deriving DecidableEq, Repr

/-- The one error envelope the POST handler ever sends. -/
def badRequestEnvelope : ErrorEnvelope :=
  { jsonrpc := "2.0"
    code := -32000
    message := "Bad Request: No valid session ID provided or not an initialization request."
    idIsNull := true }

/-- Body shape of a POST, as classified by `isInitializeRequest(req.body)`. -/
inductive PostBody
  | initReq
  | otherReq
deriving DecidableEq, Repr

/-- Outcome of the POST route: either the request was delegated to a
transport instance (identified by its identity marker), or an HTTP error
reply was sent without invoking any transport. -/
inductive PostResult
  | handled (tid : Nat)
  | replied (status : Nat) (env : ErrorEnvelope)
deriving DecidableEq, Repr

/-- Server state: the `transports` registry, a counter supplying the
identity marker of the next transport instance to be constructed, and the
position of the session-id generator stream. -/
structure St where
  reg : List (String × Nat)
  nextTid : Nat
  nextSid : Nat
deriving DecidableEq, Repr

/-- One `POST /mcp` request, translated from the handler in `index.ts`:
if the `mcp-session-id` header is truthy and registered, reuse that
transport; else if the header is falsy and the body is an initialize
request, construct a new transport whose `onsessioninitialized` callback
stores the generated session id in the registry; else reply 400 with the
error envelope.  On the create path the handshake completes inside
`transport.handleRequest` (behaviour of the SDK transport, as described in
the spec), so the session id is assigned and registered within the same
step. -/
def postStep (g : Nat → String) (st : St) (hdr : Option String)
    (body : PostBody) : St × PostResult :=
  if jsTruthyStr hdr then
    match rlookup st.reg (hdr.getD "") with
    | some tid => (st, .handled tid)
    | none => (st, .replied 400 badRequestEnvelope)
  else if body = .initReq then
    ({ reg := rinsert st.reg (g st.nextSid) st.nextTid
       nextTid := st.nextTid + 1
       nextSid := st.nextSid + 1 },
     .handled st.nextTid)
  else
    (st, .replied 400 badRequestEnvelope)

/-- Iterated valid handshakes: `hsIter g st n` is the server state after `n`
handshake-initiation POSTs (no session header, initialize body) from `st`. -/
def hsIter (g : Nat → String) (st : St) : Nat → St
  | 0 => st
  | n + 1 => (postStep g (hsIter g st n) none .initReq).1

/-- A concrete injective session-id stream used to instantiate theorems:
the id of index `n` is the string of `n + 1` copies of the letter a. -/
def genA (n : Nat) : String :=
  String.mk (List.replicate (n + 1) 'a')

/-- The `onclose` callback installed on every new transport:
`if (transport.sessionId) { delete transports[transport.sessionId] }`,
with JavaScript truthiness on the optional session id. -/
def oncloseUpdate (sid : Option String) (reg : List (String × Nat)) :
    List (String × Nat) :=
  if jsTruthyStr sid then rerase reg (sid.getD "") else reg

/-- Outcome of `handleSessionRequest` (shared by `GET /mcp` and
`DELETE /mcp`): either a plain-text 400 reply, or delegation to the
registered transport. -/
inductive SessionResult
  | badRequest (status : Nat) (body : String)
  | delegated (tid : Nat)
deriving DecidableEq, Repr

/-- The plain-text body sent for an invalid GET or DELETE. -/
def invalidSessionText : String := "Invalid or missing session ID"

/-- `handleSessionRequest` from `index.ts`:
`if (!sessionId || !transports[sessionId]) { res.status(400).send(...) }`
else delegate to `transports[sessionId].handleRequest`. -/
def handleSessionRequest (reg : List (String × Nat)) (hdr : Option String) :
    SessionResult :=
  if jsTruthyStr hdr then
    match rlookup reg (hdr.getD "") with
    | some tid => .delegated tid
    | none => .badRequest 400 invalidSessionText
  else .badRequest 400 invalidSessionText

/-- Termination signals handled by the process. -/
inductive Sig
  | sigint
  | sigterm
deriving DecidableEq, Repr

/-- Observable effects of a shutdown handler run: which transports had
`close()` invoked (in registry order), whether `server.close()` ran, and
the exit code passed to `process.exit`. -/
structure ShutdownTrace where
  closedTids : List Nat
  serverClosed : Bool
  exitCode : Nat
deriving DecidableEq, Repr

/-- The SIGINT and SIGTERM handlers from `index.ts` (two textually identical
registrations): `Object.values(transports).forEach(t => t.close());
server.close(); process.exit(0);`. -/
def shutdownHandler (sig : Sig) (reg : List (String × Nat)) : ShutdownTrace :=
  match sig with
  | .sigint => { closedTids := reg.map Prod.snd, serverClosed := true, exitCode := 0 }
  | .sigterm => { closedTids := reg.map Prod.snd, serverClosed := true, exitCode := 0 }

/-- `const DEFAULT_MINIMUM_TOKENS: number = 5000`. -/
def DEFAULT_MINIMUM_TOKENS : Int := 5000

/-- A `tokens` argument as received over the wire: a JSON number or a
string. -/
inductive TokenArg
  | num (n : Int)
  | str (s : String)
deriving DecidableEq, Repr

/-- Value of a nonempty all-digit character list, read in decimal. -/
def digitsToNat (cs : List Char) : Option Nat :=
  if cs.isEmpty then none
  else
    cs.foldl
      (fun acc c =>
        acc.bind fun a => if c.isDigit then some (a * 10 + (c.toNat - 48)) else none)
      (some 0)

/-- Model of the JavaScript `Number` coercion on the integral fragment the
tool uses: the empty string maps to 0, an optional leading minus sign
followed by decimal digits maps to the denoted integer, and anything else
maps to `none` (NaN).  Fractional, hexadecimal and whitespace forms are
outside the modelled fragment. -/
def jsNumber (s : String) : Option Int :=
  match s.data with
  | [] => some 0
  | c :: rest =>
    if c = '-' then (digitsToNat rest).map (fun n => -(n : Int))
    else (digitsToNat (c :: rest)).map (fun n => (n : Int))

/-- The zod preprocess step of the `tokens` field:
`(val) => (typeof val === "string" ? Number(val) : val)`, followed by the
`z.number()` check (`none` means validation failure, NaN included). -/
def preprocessTokens : TokenArg → Option Int
  | .num n => some n
  | .str s => jsNumber s

/-- The zod transform of the `tokens` field:
`(val) => (val < DEFAULT_MINIMUM_TOKENS ? DEFAULT_MINIMUM_TOKENS : val)`. -/
def clampTokens (v : Int) : Int :=
  if v < DEFAULT_MINIMUM_TOKENS then DEFAULT_MINIMUM_TOKENS else v

/-- The whole optional `tokens` schema: outer `none` is a validation
failure, inner `none` is an absent argument passed through by
`.optional()`. -/
def parseTokensField : Option TokenArg → Option (Option Int)
  | none => some none
  | some a => (preprocessTokens a).map (fun v => some (clampTokens v))

/-- Token count received by the handler body after the destructuring
default `tokens = DEFAULT_MINIMUM_TOKENS`; `none` when schema validation
failed and the handler never runs. -/
def forwardedTokens (arg : Option TokenArg) : Option Int :=
  (parseTokensField arg).map (fun o => o.getD DEFAULT_MINIMUM_TOKENS)

/-- Model of `String.prototype.split` with a nonempty separator, on char
lists: scan left to right, cut at each leftmost non-overlapping occurrence
of `sep`.  `fuel` bounds the recursion; with `fuel` at least the length of
the scanned list the fallback branch is never reached. -/
def splitFuel (sep : List Char) : Nat → List Char → List Char → List (List Char)
  | 0, l, acc => [acc.reverse ++ l]
  | fuel + 1, l, acc =>
    match l with
    | [] => [acc.reverse]
    | c :: rest =>
      if sep.isPrefixOf l then
        acc.reverse :: splitFuel sep fuel (l.drop sep.length) []
      else
        splitFuel sep fuel rest (c :: acc)

/-- `s.split(sep)` for a nonempty separator. -/
def jsSplit (s sep : String) : List String :=
  (splitFuel sep.data s.data.length s.data []).map String.mk

/-- Occurrence scan behind `String.prototype.includes`: `sub` occurs in the
scanned list iff it is a prefix at some position. -/
def listContains (sub : List Char) : List Char → Bool
  | [] => sub.isEmpty
  | c :: rest => sub.isPrefixOf (c :: rest) || listContains sub rest

/-- `s.includes(sub)`. -/
def jsIncludes (s sub : String) : Bool :=
  listContains sub.data s.data

/-- Join a list of strings with a separator (used only to express the
claim-side reading of the folders split). -/
def joinSep (sep : String) : List String → String
  | [] => ""
  | [x] => x
  | x :: xs => x ++ sep ++ joinSep sep xs

/-- The literal suffix marker used by the `get-library-docs` handler. -/
def foldersMarker : String := "?folders="

/-- The folders extraction at the top of the `get-library-docs` handler:
if the id contains the marker, `const [id, foldersParam] =
context7CompatibleLibraryID.split("?folders=")` keeps the first two split
fields; otherwise the id passes through with empty folders. -/
def splitLibraryId (s : String) : String × String :=
  if jsIncludes s foldersMarker then
    match jsSplit s foldersMarker with
    | id :: foldersParam :: _ => (id, foldersParam)
    | _ => (s, "")
  else (s, "")

/-- Follows the claim's words rather than the source, for comparison: the
bare id is the prefix before the first occurrence of the marker and the
folders parameter is ALL the text after that occurrence. -/
def claimSplitLibraryId (s : String) : String × String :=
  match jsSplit s foldersMarker with
  | [] => (s, "")
  | p :: rest => (p, joinSep foldersMarker rest)

/-- Arguments of the `fetchLibraryDocumentation(libraryId, {tokens, topic,
folders})` call made by the `get-library-docs` handler. -/
structure FetchArgs where
  libraryId : String
  tokens : Int
  topic : String
  folders : String
deriving DecidableEq, Repr

/-- The `get-library-docs` handler up to the fetch call: validate the
`tokens` schema, apply the destructuring defaults (`tokens =
DEFAULT_MINIMUM_TOKENS`, `topic = ""`), split the folders suffix, and
assemble the fetch arguments.  `none` means schema validation failed and
the fetch is never reached. -/
def getLibraryDocsFetchArgs (id : String) (tokens : Option TokenArg)
    (topic : Option String) : Option FetchArgs :=
  (forwardedTokens tokens).map fun t =>
    { libraryId := (splitLibraryId id).1
      tokens := t
      topic := topic.getD ""
      folders := (splitLibraryId id).2 }

/-- Result of a tool handler: a successful content payload (a list of text
blocks) or a protocol-level error.  The handlers in `index.ts` only ever
use the content constructor; the error constructor records what a thrown
exception would surface as. -/
inductive ToolResult
  | content (texts : List String)
  | protocolError (msg : String)
deriving DecidableEq, Repr

/-- Text returned when `searchLibraries` yields a falsy response or a
response with a falsy results field. -/
def failedRetrieveText : String :=
  "Failed to retrieve library documentation data from Context7"

/-- Text returned when the search succeeds with zero results. -/
def noLibrariesText : String := "No documentation libraries available"

/-- Header line prepended to a successful search result listing. -/
def availableHeaderText : String :=
  "Available libraries and their Context7-compatible library IDs:\n\n"

/-- The apostrophe character, written via its code point. -/
def apos : String := String.singleton (Char.ofNat 39)

/-- Text returned by `get-library-docs` when the fetch yields no
documentation text. -/
def docsNotFoundText : String :=
  "Documentation not found or not finalized for this library. This might have happened because you used an invalid Context7-compatible library ID. To get a valid Context7-compatible library ID, use the "
    ++ apos ++ "resolve-library-id" ++ apos
    ++ " with the package name you wish to retrieve documentation for."

/-- The `resolve-library-id` handler, translated from `index.ts`.  The
upstream `searchLibraries` response is `none` for a falsy response, `some
none` for a truthy response whose `results` field is falsy, and `some (some
rs)` for a results array.  `fmt` stands for `formatSearchResults` (in
`lib/utils.js`, outside the session core); the claims settled here do not
depend on its output. -/
def resolveLibraryIdHandler (fmt : List String → String) :
    Option (Option (List String)) → ToolResult
  | none => .content [failedRetrieveText]
  | some none => .content [failedRetrieveText]
  | some (some results) =>
    if results.length = 0 then .content [noLibrariesText]
    else .content [availableHeaderText ++ fmt results]

/-- The tail of the `get-library-docs` handler: `if (!documentationText)`
return the not-found text, else return the documentation text.  The fetch
result is `none` for a null response and `some t` for a string `t`; the
empty string is falsy like null. -/
def getLibraryDocsResult (docText : Option String) : ToolResult :=
  if jsTruthyStr docText then .content [docText.getD ""]
  else .content [docsNotFoundText]

/-! ### Registry lemmas -/

theorem rlookup_rinsert_self (reg : List (String × Nat)) (k : String) (v : Nat) :
    rlookup (rinsert reg k v) k = some v := by
  induction reg with
  | nil => simp [rinsert, rlookup]
  | cons p r ih =>
    obtain ⟨k', v'⟩ := p
    by_cases h : k' = k <;> simp [rinsert, rlookup, h, ih]

theorem rlookup_rinsert_ne (reg : List (String × Nat)) (k k' : String) (v : Nat)
    (h : k' ≠ k) : rlookup (rinsert reg k v) k' = rlookup reg k' := by
  induction reg with
  | nil => simp [rinsert, rlookup, Ne.symm h]
  | cons p r ih =>
    obtain ⟨k₀, v₀⟩ := p
    by_cases hk : k₀ = k
    · subst hk
      simp [rinsert, rlookup, Ne.symm h]
    · by_cases hk' : k₀ = k'
      · simp [rinsert, rlookup, hk, hk', h]
      · simp [rinsert, rlookup, hk, hk', ih]

theorem rerase_absent (reg : List (String × Nat)) (k : String)
    (h : rlookup reg k = none) : rerase reg k = reg := by
  induction reg with
  | nil => rfl
  | cons p r ih =>
    obtain ⟨k', v'⟩ := p
    by_cases hk : k' = k
    · simp [rlookup, hk] at h
    · simp [rlookup, hk] at h
      simp [rerase, hk, ih h]

theorem rlookup_rerase_ne (reg : List (String × Nat)) (k k' : String)
    (h : k' ≠ k) : rlookup (rerase reg k) k' = rlookup reg k' := by
  induction reg with
  | nil => rfl
  | cons p r ih =>
    obtain ⟨k₀, v₀⟩ := p
    by_cases hk : k₀ = k
    · subst hk
      simp [rerase, rlookup, Ne.symm h]
    · by_cases hk' : k₀ = k'
      · simp [rerase, rlookup, hk, hk', h]
      · simp [rerase, rlookup, hk, hk', ih]

/-! ### C1: POST with an unknown session id -/

/-- C1 counterexample: the claim's error message does not match the code.
A POST whose session header is a value absent from the registry is answered
with the envelope whose message is the Bad Request sentence, not
"session not found"; moreover a POST whose header is present but
empty-valued is treated as header-absent, so with an initialize body it
creates a session and changes the registry. -/
theorem c1_counterexample :
    (postStep genA { reg := [], nextTid := 0, nextSid := 0 } (some "deadbeef") .otherReq
        = ({ reg := [], nextTid := 0, nextSid := 0 }, .replied 400 badRequestEnvelope))
    ∧ badRequestEnvelope.message ≠ "session not found"
    ∧ (postStep genA { reg := [], nextTid := 0, nextSid := 0 } (some "") .initReq).1
        ≠ { reg := [], nextTid := 0, nextSid := 0 } := by
  refine ⟨by decide, by decide, by decide⟩

/-- C1 (amended): for every POST carrying a nonempty `mcp-session-id`
header value that is not a key of the registry, the response is the
structured JSON-RPC envelope with HTTP status 400, code -32000, jsonrpc
"2.0", null id and message "Bad Request: No valid session ID provided or
not an initialization request.", and the whole server state — registry
included — is left unchanged. -/
theorem c1_unknown_session_post (g : Nat → String) (st : St) (s : String)
    (body : PostBody) (hs : s ≠ "") (habs : rlookup st.reg s = none) :
    postStep g st (some s) body = (st, .replied 400 badRequestEnvelope)
      ∧ badRequestEnvelope.code = -32000
      ∧ badRequestEnvelope.jsonrpc = "2.0"
      ∧ badRequestEnvelope.idIsNull = true := by
  refine ⟨?_, rfl, rfl, rfl⟩
  simp [postStep, jsTruthyStr, hs, habs]

/-- C1 witness: the amended statement evaluated at a concrete server state
and header value. -/
theorem c1_unknown_session_post_witness :
    postStep genA { reg := [("a", 0)], nextTid := 1, nextSid := 1 } (some "zzz") .initReq
      = ({ reg := [("a", 0)], nextTid := 1, nextSid := 1 }, .replied 400 badRequestEnvelope) :=
  (c1_unknown_session_post genA { reg := [("a", 0)], nextTid := 1, nextSid := 1 }
    "zzz" .initReq (by decide) (by decide)).1

/-! ### C3: a session header takes precedence over the create branch -/

/-- C3 counterexample: a POST that carries the `mcp-session-id` header with
an empty value and an initialize body takes the create path: a new
transport is constructed and registered, so the registry does change. -/
theorem c3_counterexample :
    postStep genA { reg := [], nextTid := 0, nextSid := 0 } (some "") .initReq
        = ({ reg := [("a", 0)], nextTid := 1, nextSid := 1 }, .handled 0)
    ∧ ({ reg := [("a", 0)], nextTid := 1, nextSid := 1 } : St)
        ≠ { reg := [], nextTid := 0, nextSid := 0 } := by
  refine ⟨by decide, by decide⟩

/-- C3 (amended): for every POST carrying a NONEMPTY `mcp-session-id`
header value, the create path is never taken — the server state (registry
and transport counter) is unchanged, and the request is either delegated to
the transport registered under that id or rejected with the 400 envelope.
A header present with an empty value is falsy in JavaScript and is treated
exactly like an absent header, so it can take the create path. -/
theorem c3_header_precedence (g : Nat → String) (st : St) (s : String)
    (body : PostBody) (hs : s ≠ "") :
    (postStep g st (some s) body).1 = st
      ∧ ((∃ tid, rlookup st.reg s = some tid
            ∧ (postStep g st (some s) body).2 = .handled tid)
        ∨ (rlookup st.reg s = none
            ∧ (postStep g st (some s) body).2 = .replied 400 badRequestEnvelope)) := by
  cases h : rlookup st.reg s with
  | none =>
    refine ⟨?_, Or.inr ⟨rfl, ?_⟩⟩ <;> simp [postStep, jsTruthyStr, hs, h]
  | some tid =>
    refine ⟨?_, Or.inl ⟨tid, rfl, ?_⟩⟩ <;> simp [postStep, jsTruthyStr, hs, h]

/-- C3 witness: a POST with a registered nonempty header, including an
initialize body, leaves the state unchanged. -/
theorem c3_header_precedence_witness :
    (postStep genA { reg := [("s1", 7)], nextTid := 8, nextSid := 3 } (some "s1") .initReq).1
      = { reg := [("s1", 7)], nextTid := 8, nextSid := 3 } :=
  (c3_header_precedence genA { reg := [("s1", 7)], nextTid := 8, nextSid := 3 }
    "s1" .initReq (by decide)).1

/-! ### C7: GET and DELETE with a missing or unknown session id -/

/-- C7: for every GET or DELETE request whose `mcp-session-id` header is
missing or maps to no registry entry, `handleSessionRequest` replies with
plain-text 400 "Invalid or missing session ID" and delegates to no
transport. -/
theorem c7_invalid_session_rejected (reg : List (String × Nat))
    (hdr : Option String)
    (h : hdr = none ∨ rlookup reg (hdr.getD "") = none) :
    handleSessionRequest reg hdr = .badRequest 400 invalidSessionText := by
  cases hdr with
  | none => rfl
  | some s =>
    rcases h with h | h
    · exact absurd h (by simp)
    · by_cases hs : s = ""
      · simp [handleSessionRequest, jsTruthyStr, hs]
      · simp [handleSessionRequest, jsTruthyStr, hs] at h ⊢
        simp [h]

/-- C7 witness: concrete rejections for a missing header and for an
unknown header value. -/
theorem c7_invalid_session_rejected_witness :
    handleSessionRequest [("live", 4)] none = .badRequest 400 invalidSessionText
      ∧ handleSessionRequest [("live", 4)] (some "gone")
          = .badRequest 400 invalidSessionText :=
  ⟨c7_invalid_session_rejected [("live", 4)] none (Or.inl rfl),
   c7_invalid_session_rejected [("live", 4)] (some "gone") (Or.inr (by decide))⟩

/-! ### C8: graceful shutdown -/

/-- C8: on SIGINT or SIGTERM, `close()` is invoked on every transport
present in the registry, and the process exits with code 0. -/
theorem c8_shutdown_closes_all (sig : Sig) (reg : List (String × Nat))
    (k : String) (t : Nat) (h : (k, t) ∈ reg) :
    t ∈ (shutdownHandler sig reg).closedTids
      ∧ (shutdownHandler sig reg).exitCode = 0 := by
  cases sig <;> exact ⟨List.mem_map.mpr ⟨(k, t), h, rfl⟩, rfl⟩

/-- C8 witness: a concrete registry entry is closed on SIGINT and the exit
code is 0. -/
theorem c8_shutdown_closes_all_witness :
    3 ∈ (shutdownHandler .sigint [("a", 3), ("b", 9)]).closedTids
      ∧ (shutdownHandler .sigint [("a", 3), ("b", 9)]).exitCode = 0 :=
  c8_shutdown_closes_all .sigint [("a", 3), ("b", 9)] "a" 3 (by decide)

/-! ### C10: the onclose callback is frame-local -/

/-- C10: closing a transport mutates at most its own registry entry.  If no
session id was ever assigned the registry is unchanged; if one was assigned
(session ids are generated by `randomUUID` and are never empty, and the
registry holds only such keys — the hypothesis `s ≠ "" or the empty string
is not a key` records that invariant) the callback performs exactly the
deletion of its own entry; deleting an id absent from the registry is a
no-op; and lookups of every other key are unaffected, unconditionally. -/
theorem c10_onclose_frame (sid : Option String) (reg : List (String × Nat)) :
    (sid = none → oncloseUpdate sid reg = reg)
      ∧ (∀ s, sid = some s → (s ≠ "" ∨ rlookup reg "" = none) →
          oncloseUpdate sid reg = rerase reg s)
      ∧ (∀ s, sid = some s → rlookup reg s = none → oncloseUpdate sid reg = reg)
      ∧ (∀ s k, sid = some s → k ≠ s →
          rlookup (oncloseUpdate sid reg) k = rlookup reg k) := by
  refine ⟨fun h => by simp [oncloseUpdate, h, jsTruthyStr], ?_, ?_, ?_⟩
  · rintro s rfl hinv
    by_cases hs : s = ""
    · subst hs
      rcases hinv with h | h
      · exact absurd rfl h
      · simp [oncloseUpdate, jsTruthyStr, rerase_absent reg "" h]
    · simp [oncloseUpdate, jsTruthyStr, hs]
  · rintro s rfl habs
    by_cases hs : s = ""
    · simp [oncloseUpdate, jsTruthyStr, hs]
    · simp [oncloseUpdate, jsTruthyStr, hs, rerase_absent reg s habs]
  · rintro s k rfl hk
    by_cases hs : s = ""
    · simp [oncloseUpdate, jsTruthyStr, hs]
    · simp [oncloseUpdate, jsTruthyStr, hs, rlookup_rerase_ne reg s k hk]

/-- C10 witness: closing a transport bound to "abc" removes exactly the
"abc" entry and leaves the entry of "x" intact. -/
theorem c10_onclose_frame_witness :
    oncloseUpdate (some "abc") [("abc", 1), ("x", 2)] = [("x", 2)]
      ∧ rlookup (oncloseUpdate (some "abc") [("abc", 1), ("x", 2)]) "x" = some 2 := by
  have h := c10_onclose_frame (some "abc") [("abc", 1), ("x", 2)]
  have h2 := h.2.1 "abc" rfl (Or.inl (by decide))
  have h4 := h.2.2.2 "abc" "x" rfl (by decide)
  exact ⟨by rw [h2]; decide, by rw [h4]; decide⟩

/-! ### C4: the tokens floor clamp -/

/-- C4: a numeric `tokens` argument `t` reaches the documentation fetch as
5000 when `t` is below the floor and as `t` itself otherwise, so the token
count is never reduced; `tokens = 10` is forwarded as 5000 and `tokens =
9000` as 9000. -/
theorem c4_token_floor_clamp :
    (∀ (t : Int) (id : String) (top : Option String) (args : FetchArgs),
        getLibraryDocsFetchArgs id (some (.num t)) top = some args →
          (t < DEFAULT_MINIMUM_TOKENS → args.tokens = DEFAULT_MINIMUM_TOKENS)
            ∧ (DEFAULT_MINIMUM_TOKENS ≤ t → args.tokens = t)
            ∧ t ≤ args.tokens)
      ∧ (getLibraryDocsFetchArgs "mongodb/docs" (some (.num 10)) none).map
          FetchArgs.tokens = some 5000
      ∧ (getLibraryDocsFetchArgs "mongodb/docs" (some (.num 9000)) none).map
          FetchArgs.tokens = some 9000 := by
  refine ⟨?_, by decide, by decide⟩
  intro t id top args h
  have hargs : args.tokens = clampTokens t := by
    simp [getLibraryDocsFetchArgs, forwardedTokens, parseTokensField,
      preprocessTokens] at h
    rw [← h]
  rw [hargs]
  unfold clampTokens
  refine ⟨fun hlt => if_pos hlt, fun hge => if_neg (by omega), ?_⟩
  by_cases hlt : t < DEFAULT_MINIMUM_TOKENS
  · rw [if_pos hlt]; omega
  · rw [if_neg hlt]

/-- C4 witness: the clamp conclusions instantiated on the concrete fetch
arguments produced for `tokens = 10`. -/
theorem c4_token_floor_clamp_witness :
    FetchArgs.tokens
        { libraryId := "mongodb/docs", tokens := 5000, topic := "", folders := "" }
      = DEFAULT_MINIMUM_TOKENS :=
  (c4_token_floor_clamp.1 10 "mongodb/docs" none
      { libraryId := "mongodb/docs", tokens := 5000, topic := "", folders := "" }
      (by decide)).1 (by decide)

/-! ### C9: string tokens are coerced with Number before clamping -/

/-- C9: a `tokens` argument supplied as a string is converted with the
`Number` coercion before the clamp, so a string and the number it denotes
are forwarded identically — "10" is forwarded as 5000 and "9000" as 9000 —
and an omitted argument is forwarded as the default 5000. -/
theorem c9_string_tokens_coerced :
    (∀ (s : String) (n : Int), jsNumber s = some n →
        forwardedTokens (some (.str s)) = forwardedTokens (some (.num n)))
      ∧ forwardedTokens none = some DEFAULT_MINIMUM_TOKENS
      ∧ (getLibraryDocsFetchArgs "mongodb/docs" (some (.str "10")) none).map
          FetchArgs.tokens = some 5000
      ∧ (getLibraryDocsFetchArgs "mongodb/docs" (some (.str "9000")) none).map
          FetchArgs.tokens = some 9000
      ∧ (getLibraryDocsFetchArgs "mongodb/docs" none none).map
          FetchArgs.tokens = some 5000 := by
  refine ⟨?_, by decide, by decide, by decide, by decide⟩
  intro s n h
  simp [forwardedTokens, parseTokensField, preprocessTokens, h]

/-- C9 witness: the string "10" denotes 10 and is forwarded exactly like
the number 10. -/
theorem c9_string_tokens_coerced_witness :
    jsNumber "10" = some 10
      ∧ forwardedTokens (some (.str "10")) = forwardedTokens (some (.num 10)) :=
  ⟨by decide, c9_string_tokens_coerced.1 "10" 10 (by decide)⟩

/-! ### C6: upstream failures become successful content payloads -/

/-- C6: whenever the upstream search yields a falsy or invalid response or
an empty result list, and whenever the documentation fetch yields no text,
the tool handlers return a successful content payload with explanatory text
rather than a protocol-level error; zero search results yield exactly
"No documentation libraries available", and both handlers return a content
payload on every input whatsoever. -/
theorem c6_failures_are_content :
    (∀ (fmt : List String → String) (resp : Option (Option (List String))),
        ((resp = none ∨ resp = some none) →
            resolveLibraryIdHandler fmt resp = .content [failedRetrieveText])
          ∧ (resp = some (some []) →
              resolveLibraryIdHandler fmt resp = .content [noLibrariesText])
          ∧ ∃ ts, resolveLibraryIdHandler fmt resp = .content ts)
      ∧ (∀ d : Option String, (d = none ∨ d = some "") →
          getLibraryDocsResult d = .content [docsNotFoundText])
      ∧ (∀ d : Option String, ∃ ts, getLibraryDocsResult d = .content ts) := by
  refine ⟨?_, ?_, ?_⟩
  · intro fmt resp
    refine ⟨?_, ?_, ?_⟩
    · rintro (rfl | rfl) <;> rfl
    · rintro rfl; rfl
    · match resp with
      | none => exact ⟨_, rfl⟩
      | some none => exact ⟨_, rfl⟩
      | some (some results) =>
        by_cases h : results.length = 0
        · exact ⟨[noLibrariesText], by simp [resolveLibraryIdHandler, h]⟩
        · exact ⟨[availableHeaderText ++ fmt results],
            by simp [resolveLibraryIdHandler, h]⟩
  · rintro d (rfl | rfl) <;> rfl
  · intro d
    match d with
    | none => exact ⟨_, rfl⟩
    | some t =>
      by_cases h : t = ""
      · exact ⟨[docsNotFoundText], by simp [getLibraryDocsResult, jsTruthyStr, h]⟩
      · exact ⟨[t], by simp [getLibraryDocsResult, jsTruthyStr, h]⟩

/-- C6 witness: zero search results and an absent documentation text, on
concrete inputs. -/
theorem c6_failures_are_content_witness :
    resolveLibraryIdHandler (fun _ => "") (some (some [])) = .content [noLibrariesText]
      ∧ getLibraryDocsResult none = .content [docsNotFoundText] :=
  ⟨(c6_failures_are_content.1 (fun _ => "") (some (some []))).2.1 rfl,
   c6_failures_are_content.2.1 none (Or.inl rfl)⟩

/-! ### C2: handshake creation, reuse, and id uniqueness -/

theorem genA_injective : Function.Injective genA := by
  intro a b h
  have hd : List.replicate (a + 1) 'a' = List.replicate (b + 1) 'a' :=
    congrArg String.data h
  have hl := congrArg List.length hd
  simp at hl
  exact hl

theorem genA_ne (n : Nat) : genA n ≠ "" := by
  intro h
  have hd : List.replicate (n + 1) 'a' = ([] : List Char) :=
    congrArg String.data h
  have hl := congrArg List.length hd
  simp at hl

theorem hsIter_succ (g : Nat → String) (st : St) (n : Nat) :
    hsIter g st (n + 1) =
      { reg := rinsert (hsIter g st n).reg (g (hsIter g st n).nextSid)
          (hsIter g st n).nextTid
        nextTid := (hsIter g st n).nextTid + 1
        nextSid := (hsIter g st n).nextSid + 1 } := by
  simp [hsIter, postStep, jsTruthyStr]

theorem hsIter_nextSid (g : Nat → String) (st : St) (n : Nat) :
    (hsIter g st n).nextSid = st.nextSid + n := by
  induction n with
  | zero => rfl
  | succ n ih => rw [hsIter_succ, ih]; rfl

/-- C2: assuming the session-id generator is injective and never produces
the empty string (the `randomUUID` contract), a valid handshake-initiation
POST with no session header — the (n+1)-st such handshake in a run —
is delegated to a newly constructed transport instance; once its session id
is assigned, that id is registered and maps to exactly that instance; every
later POST bearing that id (after any number of further handshakes) still
resolves to the identical instance without changing the state; and the ids
assigned across repeated handshakes are pairwise distinct. -/
theorem c2_handshake_session_lifecycle (g : Nat → String)
    (hg : Function.Injective g) (hne : ∀ n, g n ≠ "") (st : St) (n : Nat) :
    ((postStep g (hsIter g st n) none .initReq).2
        = .handled (hsIter g st n).nextTid)
      ∧ (∀ m, n < m →
          rlookup (hsIter g st m).reg (g (hsIter g st n).nextSid)
            = some (hsIter g st n).nextTid)
      ∧ (∀ m (body : PostBody), n < m →
          postStep g (hsIter g st m) (some (g (hsIter g st n).nextSid)) body
            = (hsIter g st m, .handled (hsIter g st n).nextTid))
      ∧ (∀ i j : Nat, i ≠ j →
          g (hsIter g st i).nextSid ≠ g (hsIter g st j).nextSid) := by
  have hdistinct : ∀ i j : Nat, i ≠ j →
      g (hsIter g st i).nextSid ≠ g (hsIter g st j).nextSid := by
    intro i j hij h
    apply hij
    have := hg h
    rw [hsIter_nextSid, hsIter_nextSid] at this
    omega
  have hreg : ∀ m, n < m →
      rlookup (hsIter g st m).reg (g (hsIter g st n).nextSid)
        = some (hsIter g st n).nextTid := by
    intro m hm
    induction m with
    | zero => omega
    | succ m ih =>
      rw [hsIter_succ]
      rcases Nat.lt_succ_iff_lt_or_eq.mp hm with hlt | rfl
      · rw [rlookup_rinsert_ne _ _ _ _ (hdistinct n m (Nat.ne_of_lt hlt))]
        exact ih hlt
      · exact rlookup_rinsert_self _ _ _
  refine ⟨?_, hreg, ?_, hdistinct⟩
  · simp [postStep, jsTruthyStr]
  · intro m body hm
    have hl := hreg m hm
    simp [postStep, jsTruthyStr, hne (hsIter g st n).nextSid, hl]

/-- C2 witness: with the concrete injective generator `genA` and the empty
initial state, the id assigned by the first handshake is registered to
transport 0 after the second handshake, the POST reusing it is delegated to
transport 0 without a state change, and the first two assigned ids
differ. -/
theorem c2_handshake_session_lifecycle_witness :
    rlookup (hsIter genA { reg := [], nextTid := 0, nextSid := 0 } 2).reg
        (genA (hsIter genA { reg := [], nextTid := 0, nextSid := 0 } 0).nextSid)
      = some (hsIter genA { reg := [], nextTid := 0, nextSid := 0 } 0).nextTid
    ∧ postStep genA (hsIter genA { reg := [], nextTid := 0, nextSid := 0 } 2)
        (some (genA (hsIter genA { reg := [], nextTid := 0, nextSid := 0 } 0).nextSid))
        .otherReq
      = (hsIter genA { reg := [], nextTid := 0, nextSid := 0 } 2,
         .handled (hsIter genA { reg := [], nextTid := 0, nextSid := 0 } 0).nextTid)
    ∧ genA (hsIter genA { reg := [], nextTid := 0, nextSid := 0 } 0).nextSid
        ≠ genA (hsIter genA { reg := [], nextTid := 0, nextSid := 0 } 1).nextSid := by
  have h := c2_handshake_session_lifecycle genA genA_injective genA_ne
    { reg := [], nextTid := 0, nextSid := 0 } 0
  exact ⟨h.2.1 2 (by decide), h.2.2.1 2 .otherReq (by decide),
    h.2.2.2 0 1 (by decide)⟩

/-! ### C5: the folders suffix split -/

theorem splitFuel_ne_nil (sep : List Char) (fuel : Nat) (l acc : List Char) :
    splitFuel sep fuel l acc ≠ [] := by
  induction fuel generalizing l acc with
  | zero => simp [splitFuel]
  | succ fuel ih =>
    match l with
    | [] => simp [splitFuel]
    | c :: rest =>
      simp only [splitFuel]
      split
      · simp
      · exact ih rest (c :: acc)

theorem splitFuel_two_of_contains (sep : List Char) (hsep : sep ≠ [])
    (fuel : Nat) : ∀ (l acc : List Char), l.length ≤ fuel →
      listContains sep l = true → 2 ≤ (splitFuel sep fuel l acc).length := by
  induction fuel with
  | zero =>
    intro l acc hlen hc
    have hnil : l = [] := List.length_eq_zero.mp (Nat.le_zero.mp hlen)
    subst hnil
    simp [listContains, List.isEmpty_iff] at hc
    exact absurd hc hsep
  | succ fuel ih =>
    intro l acc hlen hc
    match l with
    | [] =>
      simp [listContains, List.isEmpty_iff] at hc
      exact absurd hc hsep
    | c :: rest =>
      by_cases hp : sep.isPrefixOf (c :: rest)
      · simp only [splitFuel, if_pos hp, List.length_cons]
        have hne := splitFuel_ne_nil sep fuel ((c :: rest).drop sep.length) []
        have hpos := List.length_pos.mpr hne
        omega
      · simp only [splitFuel, if_neg hp]
        have hc' : listContains sep rest = true := by
          simp only [listContains, Bool.or_eq_true] at hc
          rcases hc with h | h
          · exact absurd h hp
          · exact h
        have hlen' : rest.length ≤ fuel := by
          simp only [List.length_cons] at hlen
          omega
        exact ih rest (c :: acc) hlen' hc'

/-- C5 counterexample: when the marker occurs twice, the handler forwards
only the first split field after the bare id — the segment between the two
occurrences — while the claim's "the text after it" is everything after the
first occurrence, and the two differ. -/
theorem c5_counterexample :
    splitLibraryId "a?folders=b?folders=c" = ("a", "b")
      ∧ claimSplitLibraryId "a?folders=b?folders=c" = ("a", "b?folders=c")
      ∧ (getLibraryDocsFetchArgs "a?folders=b?folders=c" none none).map
          FetchArgs.folders = some "b"
      ∧ ("b" : String) ≠ "b?folders=c" := by
  refine ⟨by decide, by decide, by decide, by decide⟩

/-- C5 (amended): for every `get-library-docs` id containing "?folders=",
the split of the id on that marker has at least two fields, the fetch call
receives the first field as the bare library id and the second field — the
text between the first occurrence and the next one, if any — as the folders
parameter; when the marker occurs exactly once this coincides with the
claim's reading (prefix before the marker, all text after it); in
particular "vercel/nextjs?folders=app" is forwarded as bare id
"vercel/nextjs" with folder selector "app". -/
theorem c5_folders_split :
    (∀ id : String, jsIncludes id foldersMarker = true →
        ∃ a b rest, jsSplit id foldersMarker = a :: b :: rest
          ∧ splitLibraryId id = (a, b)
          ∧ (rest = [] → splitLibraryId id = claimSplitLibraryId id))
      ∧ (∀ (id : String) (tok : Option TokenArg) (top : Option String)
            (args : FetchArgs),
          getLibraryDocsFetchArgs id tok top = some args →
            args.libraryId = (splitLibraryId id).1
              ∧ args.folders = (splitLibraryId id).2)
      ∧ getLibraryDocsFetchArgs "vercel/nextjs?folders=app" none none
          = some { libraryId := "vercel/nextjs", tokens := 5000, topic := ""
                   folders := "app" } := by
  refine ⟨?_, ?_, by decide⟩
  · intro id hinc
    have h2 : 2 ≤ (jsSplit id foldersMarker).length := by
      unfold jsSplit
      rw [List.length_map]
      exact splitFuel_two_of_contains foldersMarker.data (by decide)
        id.data.length id.data [] (le_refl _) hinc
    match hsplit : jsSplit id foldersMarker with
    | [] => rw [hsplit] at h2; simp at h2
    | [a] => rw [hsplit] at h2; simp at h2
    | a :: b :: rest =>
      refine ⟨a, b, rest, rfl, ?_, ?_⟩
      · simp [splitLibraryId, hinc, hsplit]
      · rintro rfl
        simp [splitLibraryId, claimSplitLibraryId, hinc, hsplit, joinSep]
  · intro id tok top args h
    obtain ⟨t, _, heq⟩ := Option.map_eq_some'.mp h
    rw [← heq]
    exact ⟨rfl, rfl⟩

/-- C5 witness: the amended statement evaluated on the concrete id
"vercel/nextjs?folders=app". -/
theorem c5_folders_split_witness :
    FetchArgs.libraryId
        { libraryId := "vercel/nextjs", tokens := 5000, topic := "", folders := "app" }
      = (splitLibraryId "vercel/nextjs?folders=app").1
    ∧ FetchArgs.folders
        { libraryId := "vercel/nextjs", tokens := 5000, topic := "", folders := "app" }
      = (splitLibraryId "vercel/nextjs?folders=app").2
    ∧ getLibraryDocsFetchArgs "vercel/nextjs?folders=app" none none
      = some { libraryId := "vercel/nextjs", tokens := 5000, topic := ""
               folders := "app" } := by
  have _h1 := c5_folders_split.1 "vercel/nextjs?folders=app" (by decide)
  have h2 := c5_folders_split.2.1 "vercel/nextjs?folders=app" none none
    { libraryId := "vercel/nextjs", tokens := 5000, topic := "", folders := "app" }
    (by decide)
  exact ⟨h2.1, h2.2, c5_folders_split.2.2⟩

end Context7
